import Mathlib

/-!
Shallow embedding of the ACP protocol session driver of this repository
(src/examples/acp/acp_client.py and src/examples/acp/advanced_acp_client.py),
together with proofs settling the behavioural claims about it.

Python JSON values (the output of json.loads) are modelled by the inductive
type JVal below, with JVal.null standing for Python None.  Dictionary access
d.get(k, default), d[k] and the operator k in d are modelled by total or
Option-valued lookup functions; an Option result of none stands for an
uncaught Python exception (AttributeError / KeyError / TypeError) at that
access.  Mutable client state is passed explicitly.
-/

/-- A Python value decoded from a JSON line (json.loads result).
JVal.null models Python None; objects keep their key/value pairs in
insertion order (the last binding of a duplicated key wins on lookup,
matching json.loads). -/
inductive JVal where
  | null : JVal
  | bool : Bool → JVal
  | num : Int → JVal
  | str : String → JVal
  | arr : List JVal → JVal
  | obj : List (String × JVal) → JVal
deriving Repr

mutual

/-- Structural equality of two decoded values (Python == on scalars and
containers of JSON origin). -/
def JVal.beq : JVal → JVal → Bool
  | .null, .null => true
  | .bool a, .bool b => a == b
  | .num a, .num b => a == b
  | .str a, .str b => a == b
  | .arr xs, .arr ys => JVal.beqL xs ys
  | .obj xs, .obj ys => JVal.beqKV xs ys
  | _, _ => false

/-- Elementwise equality of two value lists. -/
def JVal.beqL : List JVal → List JVal → Bool
  | [], [] => true
  | x :: xs, y :: ys => JVal.beq x y && JVal.beqL xs ys
  | _, _ => false

/-- Entrywise equality of two key/value lists. -/
def JVal.beqKV : List (String × JVal) → List (String × JVal) → Bool
  | [], [] => true
  | (k1, v1) :: xs, (k2, v2) :: ys => k1 == k2 && JVal.beq v1 v2 && JVal.beqKV xs ys
  | _, _ => false

end

instance : BEq JVal := ⟨JVal.beq⟩

/-- Last-wins lookup in an object's key/value list, modelling Python dict
lookup on the dict json.loads builds (later duplicate keys overwrite). -/
def objLookup (kvs : List (String × JVal)) (k : String) : Option JVal :=
  kvs.foldl (fun acc p => if p.1 = k then some p.2 else acc) none

/-- Python d.get(k, default) on an object's key/value list (total, the
receiver is known to be a dict). -/
def objGetD (kvs : List (String × JVal)) (k : String) (d : JVal) : JVal :=
  (objLookup kvs k).getD d

/-- Python k in d on an object's key/value list. -/
def objMem (kvs : List (String × JVal)) (k : String) : Bool :=
  (objLookup kvs k).isSome

/-- Python v.get(k) for an arbitrary value: AttributeError (none) when the
receiver is not a dict, otherwise the value or None for a missing key. -/
def pyGet (v : JVal) (k : String) : Option JVal :=
  match v with
  | .obj kvs => some (objGetD kvs k .null)
  | _ => none

/-- Python v[k] for a string key: KeyError (none) on a missing key,
TypeError (none) when the receiver is not a dict. -/
def pyIndexS (v : JVal) (k : String) : Option JVal :=
  match v with
  | .obj kvs => objLookup kvs k
  | _ => none

/-- Python needle in v: key membership on dicts, element membership on
lists, substring test on strings, TypeError (none) otherwise. -/
def pyIn (needle : String) (v : JVal) : Option Bool :=
  match v with
  | .obj kvs => some (objMem kvs needle)
  | .arr xs => some (xs.any (fun x => x == .str needle))
  | .str s => some ((s.splitOn needle).length > 1)
  | _ => none

/-- Whether a value may be used as a Python dict key (lists and dicts are
unhashable; using one as a key raises TypeError). -/
def hashableJ : JVal → Bool
  | .arr _ => false
  | .obj _ => false
  | _ => true

/-!  Client state shared by both example clients: ACPClient.__init__ /
AdvancedACPClient.__init__ set self.message_id = 0 and
self.session_id = None.  -/

/-- The identifier-allocation and session state of a client
(ACPClient / AdvancedACPClient fields message_id and session_id). -/
structure ClientSt where
  message_id : Nat
  session_id : Option String
deriving DecidableEq, Repr

/-- A freshly constructed client (both __init__ methods). -/
def clientInit : ClientSt := { message_id := 0, session_id := none }

/-- ACPClient.get_next_id / AdvancedACPClient.get_next_id:
increment self.message_id and return it. -/
def get_next_id (c : ClientSt) : Nat × ClientSt :=
  (c.message_id + 1, { c with message_id := c.message_id + 1 })

/-- The identifiers assigned by n successive get_next_id calls
starting from client state c. -/
def issueIds (c : ClientSt) : Nat → List Nat
  | 0 => []
  | n + 1 =>
    let r := get_next_id c
    r.1 :: issueIds r.2 n

/-!  Tool-call tracking state of AdvancedACPClient.send_prompt: the local
dict tool_calls maps a tool-call id (any hashable value) to the dict
created at its announcement. -/

/-- One entry of the tool_calls dict of AdvancedACPClient.send_prompt:
the dict literal with keys title and status built at a tool_call
announcement, whose status field is later overwritten by updates. -/
structure ToolEntry where
  title : JVal
  status : JVal
deriving Repr

/-- Lookup in the tool_calls dict (first matching key; tcSet keeps keys
unique, mirroring a Python dict). -/
def tcGet (m : List (JVal × ToolEntry)) (k : JVal) : Option ToolEntry :=
  match m with
  | [] => none
  | (k', e) :: rest => if k' == k then some e else tcGet rest k

/-- Python k in tool_calls. -/
def tcMem (m : List (JVal × ToolEntry)) (k : JVal) : Bool :=
  (tcGet m k).isSome

/-- Python tool_calls[k] = e: replace the entry in place when the key is
present (a Python dict keeps the original insertion position), append
otherwise. -/
def tcSet (m : List (JVal × ToolEntry)) (k : JVal) (e : ToolEntry) :
    List (JVal × ToolEntry) :=
  match m with
  | [] => [(k, e)]
  | (k', e') :: rest =>
    if k' == k then (k', e) :: rest else (k', e') :: tcSet rest k e

/-- Python tool_calls[k]["status"] = s: overwrite the status field of the
entry bearing key k (no effect on other entries). -/
def tcSetStatus (m : List (JVal × ToolEntry)) (k : JVal) (s : JVal) :
    List (JVal × ToolEntry) :=
  match m with
  | [] => []
  | (k', e) :: rest =>
    if k' == k then (k', { e with status := s }) :: rest
    else (k', e) :: tcSetStatus rest k s

/-- The stored status of tool call k, when k has been announced. -/
def tcStatus (m : List (JVal × ToolEntry)) (k : JVal) : Option JVal :=
  (tcGet m k).map ToolEntry.status

/-!  The loops over nested content blocks only print; the embedding records
whether they complete without an uncaught exception. -/

/-- Whether one element of a completed tool_call_update's content list is
processed without an exception by the loop bodies at
acp_client.py:243-248 / advanced_acp_client.py:304-311: the element must
be a dict (block.get), and when its type is "content" the nested content
value (default an empty dict) must again be a dict. -/
def blockOk (b : JVal) : Bool :=
  match b with
  | .obj kvs =>
    if objGetD kvs "type" .null == JVal.str "content" then
      match objGetD kvs "content" (.obj []) with
      | .obj _ => true
      | _ => false
    else true
  | _ => false

/-- Whether Python iteration of for block in v: with the block body of
blockOk terminates without an exception: lists are iterated elementwise,
iterating a dict yields its keys (strings, on which block.get raises
unless there are none), iterating a string yields characters (likewise),
and other values are not iterable (TypeError). -/
def iterOkBlocks (v : JVal) : Bool :=
  match v with
  | .arr xs => xs.all blockOk
  | .obj kvs => kvs.isEmpty
  | .str s => s.isEmpty
  | _ => false

/-- Whether the plan-entry loop of advanced_acp_client.py:318-329 runs
without an exception: each iterated element must be a dict for
entry.get to succeed. -/
def iterOkEntries (v : JVal) : Bool :=
  match v with
  | .arr xs => xs.all (fun e => match e with | .obj _ => true | _ => false)
  | .obj kvs => kvs.isEmpty
  | .str s => s.isEmpty
  | _ => false

/-- Processing of one session/update payload (the value of
params.update) by the simple client, acp_client.py:226-248.  The state is
the local response_text list; none models an uncaught exception. -/
def simpleStep (rt : List JVal) (update : JVal) : Option (List JVal) :=
  match update with
  | .obj kvs =>
    let su := objGetD kvs "sessionUpdate" .null
    if su == JVal.str "agent_message_chunk" then
      match objGetD kvs "content" (.obj []) with
      | .obj cks =>
        if objGetD cks "type" .null == JVal.str "text" then
          some (rt ++ [objGetD cks "text" (.str "")])
        else some rt
      | _ => none
    else if su == JVal.str "tool_call" then
      some rt
    else if su == JVal.str "tool_call_update" then
      if objGetD kvs "status" .null == JVal.str "completed" then
        if iterOkBlocks (objGetD kvs "content" (.arr [])) then some rt else none
      else some rt
    else some rt
  | _ => none

/-- State of one turn of AdvancedACPClient.send_prompt: the locals
response_text and tool_calls. -/
structure AdvSt where
  responseText : List JVal
  toolCalls : List (JVal × ToolEntry)
deriving Repr

/-- The locals of AdvancedACPClient.send_prompt at the start of a turn
(response_text = [], tool_calls = dict()). -/
def advInit : AdvSt := { responseText := [], toolCalls := [] }

/-- Processing of one session/update payload by the advanced client,
advanced_acp_client.py:277-329.  none models an uncaught exception:
update.get on a non-dict, an unhashable toolCallId used as a dict key,
the lookup tool_calls[tool_id] for an id never announced (reached for
statuses in_progress, completed and failed), or a faulting content /
entries loop. -/
def advStep (st : AdvSt) (update : JVal) : Option AdvSt :=
  match update with
  | .obj kvs =>
    let su := objGetD kvs "sessionUpdate" .null
    if su == JVal.str "agent_message_chunk" then
      match objGetD kvs "content" (.obj []) with
      | .obj cks =>
        if objGetD cks "type" .null == JVal.str "text" then
          some { st with
                 responseText := st.responseText ++ [objGetD cks "text" (.str "")] }
        else some st
      | _ => none
    else if su == JVal.str "tool_call" then
      let toolId := objGetD kvs "toolCallId" .null
      let title := objGetD kvs "title" (.str "Unknown tool")
      if hashableJ toolId then
        some { st with
               toolCalls := tcSet st.toolCalls toolId
                 { title := title, status := .str "pending" } }
      else none
    else if su == JVal.str "tool_call_update" then
      let toolId := objGetD kvs "toolCallId" .null
      let status := objGetD kvs "status" .null
      if hashableJ toolId then
        let known := tcMem st.toolCalls toolId
        let tcs := if known then tcSetStatus st.toolCalls toolId status
                   else st.toolCalls
        if status == JVal.str "in_progress" then
          if known then some { st with toolCalls := tcs } else none
        else if status == JVal.str "completed" then
          if known then
            if iterOkBlocks (objGetD kvs "content" (.arr [])) then
              some { st with toolCalls := tcs }
            else none
          else none
        else if status == JVal.str "failed" then
          if known then some { st with toolCalls := tcs } else none
        else some { st with toolCalls := tcs }
      else none
    else if su == JVal.str "plan" then
      if iterOkEntries (objGetD kvs "entries" (.arr [])) then some st else none
    else some st
  | _ => none

/-- Processing of a whole sequence of session/update payloads by the
simple client, one simpleStep per payload, an exception aborting the run. -/
def simpleRun (rt : List JVal) : List JVal → Option (List JVal)
  | [] => some rt
  | u :: rest =>
    match simpleStep rt u with
    | none => none
    | some rt' => simpleRun rt' rest

/-- Processing of a whole sequence of session/update payloads by the
advanced client. -/
def advRun (st : AdvSt) : List JVal → Option AdvSt
  | [] => some st
  | u :: rest =>
    match advStep st u with
    | none => none
    | some st' => advRun st' rest

/-- The text values a session/update payload contributes to the
accumulated response text: both clients append content.get("text", "")
exactly when the payload is an agent_message_chunk whose content block is
a dict of type "text" (acp_client.py:228-233,
advanced_acp_client.py:279-284). -/
def chunkTexts (u : JVal) : List JVal :=
  match u with
  | .obj kvs =>
    if objGetD kvs "sessionUpdate" .null == JVal.str "agent_message_chunk" then
      match objGetD kvs "content" (.obj []) with
      | .obj cks =>
        if objGetD cks "type" .null == JVal.str "text" then
          [objGetD cks "text" (.str "")]
        else []
      | _ => []
    else []
  | _ => []

/-- Whether a session/update payload is a text chunk, i.e. contributes to
the accumulated response text. -/
def isTextChunk (u : JVal) : Bool :=
  !(chunkTexts u).isEmpty

/-- Python str.join-style concatenation of a list of string values (used
to state reconstruction results; non-string members contribute nothing). -/
def strJoin (l : List JVal) : String :=
  l.foldl (fun acc v => acc ++ (match v with | .str s => s | _ => "")) ""

/-- A bare agent_message_chunk update payload carrying text t. -/
def chunkUpd (t : String) : JVal :=
  .obj [("sessionUpdate", .str "agent_message_chunk"),
        ("content", .obj [("type", .str "text"), ("text", .str t)])]

/-- A full session/update notification envelope carrying a text chunk. -/
def chunkNotif (t : String) : JVal :=
  .obj [("jsonrpc", .str "2.0"), ("method", .str "session/update"),
        ("params", .obj [("update", chunkUpd t)])]

/-- A tool_call announcement payload for id kid with the given title. -/
def callMsg (kid title : JVal) : JVal :=
  .obj [("sessionUpdate", .str "tool_call"), ("toolCallId", kid),
        ("title", title)]

/-- A tool_call_update payload for id kid carrying status sv. -/
def updMsg (kid sv : JVal) : JVal :=
  .obj [("sessionUpdate", .str "tool_call_update"), ("toolCallId", kid),
        ("status", sv)]

/-- The stored status of tool call k after each successfully processed
update of a sequence (none when processing raises). -/
def statusTrace (k : JVal) (st : AdvSt) : List JVal → Option (List (Option JVal))
  | [] => some []
  | u :: rest =>
    match advStep st u with
    | none => none
    | some st' =>
      match statusTrace k st' rest with
      | none => none
      | some tr => some (tcStatus st'.toolCalls k :: tr)

/-- Rank of a tool-call status along the lifecycle chain
pending, in_progress, then completed or failed. -/
def rankS : JVal → Nat
  | .str s =>
    if s = "pending" then 0
    else if s = "in_progress" then 1
    else if s = "completed" then 2
    else if s = "failed" then 2
    else 0
  | _ => 0

/-- Whether a sequence of statuses only ever moves forward along the
lifecycle chain (adjacent ranks never decrease). -/
def noRegressionB : List JVal → Bool
  | [] => true
  | [_] => true
  | a :: b :: rest => decide (rankS a ≤ rankS b) && noRegressionB (b :: rest)

/-!  Dispatch of one queue item inside the send_prompt loops
(acp_client.py:225-259, advanced_acp_client.py:276-341): both clients
first test response.get("method") == "session/update" (AttributeError on
a non-dict), then elif "result" in response and "stopReason" in
response["result"] (break), then elif "error" in response (return
False), else fall through to the next iteration. -/

/-- Classification of one decoded queue item by the send_prompt loops. -/
inductive Dispatch where
  | upd (u : JVal)
  | done
  | err
  | skip
  | crash
deriving Repr

/-- The dispatch both send_prompt loops perform on one queue item. -/
def classify (resp : JVal) : Dispatch :=
  match resp with
  | .obj kvs =>
    if objGetD kvs "method" .null == JVal.str "session/update" then
      match objLookup kvs "params" with
      | none => .crash
      | some p =>
        match pyIndexS p "update" with
        | none => .crash
        | some u => .upd u
    else if objMem kvs "result" then
      match pyIn "stopReason" (objGetD kvs "result" .null) with
      | none => .crash
      | some true => .done
      | some false => if objMem kvs "error" then .err else .skip
    else if objMem kvs "error" then .err
    else .skip
  | _ => .crash

/-- Result of a send_prompt turn loop: ok models return True, fail models
return False, crash an uncaught exception, pending a run whose modelled
queue ended while the loop was still waiting. -/
inductive TurnOutcome where
  | ok
  | fail
  | crash
  | pending
deriving DecidableEq, Repr

/-- The response loop of ACPClient.send_prompt (acp_client.py:218-259)
over the sequence of wait_for_response results (none is a timeout).  The
second component is the local response_text at loop exit. -/
def simpleLoop (rt : List JVal) : List (Option JVal) → TurnOutcome × List JVal
  | [] => (.pending, rt)
  | none :: _ => (.fail, rt)
  | some resp :: rest =>
    match classify resp with
    | .crash => (.crash, rt)
    | .done => (.ok, rt)
    | .err => (.fail, rt)
    | .skip => simpleLoop rt rest
    | .upd u =>
      match simpleStep rt u with
      | none => (.crash, rt)
      | some rt' => simpleLoop rt' rest

/-- The response loop of AdvancedACPClient.send_prompt
(advanced_acp_client.py:269-341).  The fuel argument counts how many more
times the deadline check time.time() - start_time < timeout passes; when
it reaches zero the loop exits and the function returns True after
printing its summary. -/
def advLoop (st : AdvSt) : Nat → List (Option JVal) → TurnOutcome × AdvSt
  | 0, _ => (.ok, st)
  | _ + 1, [] => (.pending, st)
  | fuel + 1, m :: rest =>
    match m with
    | none => (.fail, st)
    | some resp =>
      match classify resp with
      | .crash => (.crash, st)
      | .done => (.ok, st)
      | .err => (.fail, st)
      | .skip => advLoop st fuel rest
      | .upd u =>
        match advStep st u with
        | none => (.crash, st)
        | some st' => advLoop st' fuel rest

/-- Python truthiness of the optional session_id string (None and the
empty string are falsy). -/
def pyTruthyStr : Option String → Bool
  | none => false
  | some s => !s.isEmpty

/-- Observable run of ACPClient.send_prompt: the returned outcome, the
client state on return, the ids of the requests written to the
subprocess's stdin, and the local response_text at exit. -/
structure SRun where
  outcome : TurnOutcome
  client : ClientSt
  writtenIds : List Nat
  gathered : List JVal
deriving Repr

/-- ACPClient.send_prompt (acp_client.py:191-262), with the transport
assumed writable: the sessionless guard returns False before any id is
allocated or any line written; otherwise one request id is allocated,
one session/prompt line is written, and the response loop runs.  The
Python return value is the outcome field alone; response_text is a local
that the function never returns. -/
def send_prompt (c : ClientSt) (msgs : List (Option JVal)) : SRun :=
  if pyTruthyStr c.session_id then
    let r := get_next_id c
    let lr := simpleLoop [] msgs
    { outcome := lr.1, client := r.2, writtenIds := [r.1], gathered := lr.2 }
  else
    { outcome := .fail, client := c, writtenIds := [], gathered := [] }

/-- Observable run of AdvancedACPClient.send_prompt. -/
structure ARun where
  outcome : TurnOutcome
  client : ClientSt
  writtenIds : List Nat
  final : AdvSt
deriving Repr

/-- AdvancedACPClient.send_prompt (advanced_acp_client.py:236-351), with
the transport assumed writable; fuel as in advLoop. -/
def send_promptA (c : ClientSt) (fuel : Nat) (msgs : List (Option JVal)) : ARun :=
  if pyTruthyStr c.session_id then
    let r := get_next_id c
    let lr := advLoop advInit fuel msgs
    { outcome := lr.1, client := r.2, writtenIds := [r.1], final := lr.2 }
  else
    { outcome := .fail, client := c, writtenIds := [], final := advInit }

/-!  The reader thread (ACPClient._read_responses, acp_client.py:79-94,
and AdvancedACPClient._read_responses, advanced_acp_client.py:102-119)
strips each line, skips empty ones, enqueues lines that json.loads
accepts, and prints a warning for lines it rejects; the loop then
continues with the next line either way. -/

/-- One line read from the subprocess's stdout: its stripped text and the
result of json.loads on it (none models JSONDecodeError). -/
structure RawLine where
  stripped : String
  parsed : Option JVal
deriving Repr

/-- The reader loop over the lines read while the subprocess is alive:
first component the decoded values put on response_queue in order,
second component the stripped text of the malformed lines warned about,
in order. -/
def readLoop : List RawLine → List JVal × List String
  | [] => ([], [])
  | l :: rest =>
    let r := readLoop rest
    if l.stripped.isEmpty then r
    else
      match l.parsed with
      | some j => (j :: r.1, r.2)
      | none => (r.1, l.stripped :: r.2)

/-!  Shutdown (ACPClient.shutdown, acp_client.py:264-284, and
AdvancedACPClient.shutdown, advanced_acp_client.py:376-398; the two
bodies take the same externally visible steps, the advanced variant
additionally clears its running flag and guards the exit write with a
bare except).  All exceptions raised while writing the exit notification
are caught inside send_message, so the procedure never raises. -/

/-- Subprocess liveness as observed by Popen.poll (alive when poll()
returns None). -/
inductive Liveness where
  | alive
  | dead
deriving DecidableEq, Repr

/-- The state a shutdown call starts from, together with how the
subprocess behaves during the two bounded waits. -/
structure ShutCtx where
  started : Bool
  stdinOpen : Bool
  live : Liveness
  diesInGrace : Bool
  diesInTermWait : Bool
deriving DecidableEq, Repr

/-- The externally visible steps a shutdown call can take.  awaitResp is
the blocking read of the response queue (wait_for_response), listed so
that its absence from shutdown traces is expressible. -/
inductive ShutAct where
  | sendExit
  | sleepGrace
  | terminate
  | sleepTerm
  | kill
  | awaitResp
deriving DecidableEq, Repr

/-- The shutdown procedure of both clients: when a process with an open
stdin exists, write the exit notification (fire and forget), sleep one
bounded grace period, and only if poll() still returns None send
terminate, sleep a second bounded period, and only if poll() still
returns None send kill.  Returns the action trace and the subprocess
liveness afterwards. -/
def shutdown (c : ShutCtx) : List ShutAct × Liveness :=
  if c.started && c.stdinOpen then
    let live1 := match c.live with
      | .dead => Liveness.dead
      | .alive => if c.diesInGrace then Liveness.dead else Liveness.alive
    match live1 with
    | .dead => ([.sendExit, .sleepGrace], .dead)
    | .alive =>
      let live2 := if c.diesInTermWait then Liveness.dead else Liveness.alive
      match live2 with
      | .dead => ([.sendExit, .sleepGrace, .terminate, .sleepTerm], .dead)
      | .alive => ([.sendExit, .sleepGrace, .terminate, .sleepTerm, .kill], .dead)
  else ([], c.live)

/-- A full session/update notification envelope around an arbitrary
update payload. -/
def updNotif (u : JVal) : JVal :=
  .obj [("jsonrpc", .str "2.0"), ("method", .str "session/update"),
        ("params", .obj [("update", u)])]

/-!  Helper lemmas. -/

/-- Unfolding of the BEq instance on decoded values. -/
theorem jbeq_def (a b : JVal) : (a == b) = JVal.beq a b := rfl

/-- Equality on hashable (scalar) decoded values is reflexive. -/
theorem jbeq_refl_hashable (v : JVal) (h : hashableJ v = true) :
    (v == v) = true := by
  cases v <;> simp_all [hashableJ, jbeq_def, JVal.beq]

/-- The identifiers handed out by repeated get_next_id calls count up from
one past the starting counter. -/
theorem issueIds_eq_range' (c : ClientSt) (n : Nat) :
    issueIds c n = List.range' (c.message_id + 1) n := by
  induction n generalizing c with
  | zero => rfl
  | succ n ih =>
    simp [issueIds, get_next_id, ih, List.range'_succ]

/-- A successfully processed update extends the simple client's
response_text by exactly its chunk texts. -/
theorem simpleStep_text (rt : List JVal) (u : JVal) (rt' : List JVal)
    (h : simpleStep rt u = some rt') : rt' = rt ++ chunkTexts u := by
  cases u with
  | obj kvs =>
    simp only [simpleStep, chunkTexts] at h ⊢
    repeat' split at h
    all_goals simp_all
  | null => simp [simpleStep] at h
  | bool b => simp [simpleStep] at h
  | num n => simp [simpleStep] at h
  | str s => simp [simpleStep] at h
  | arr xs => simp [simpleStep] at h

/-- A successfully processed update extends the advanced client's
response_text by exactly its chunk texts (and only the chunk branch
touches it). -/
theorem advStep_text (st : AdvSt) (u : JVal) (st' : AdvSt)
    (h : advStep st u = some st') :
    st'.responseText = st.responseText ++ chunkTexts u := by
  cases u with
  | obj kvs =>
    simp only [advStep, chunkTexts] at h ⊢
    repeat' split at h
    all_goals (try (cases h))
    all_goals simp_all
  | null => simp [advStep] at h
  | bool b => simp [advStep] at h
  | num n => simp [advStep] at h
  | str s => simp [advStep] at h
  | arr xs => simp [advStep] at h

/-- Processing a whole update sequence appends the chunk texts of the
sequence, in order, to the simple client's response_text. -/
theorem simpleRun_text (us : List JVal) (rt rt' : List JVal)
    (h : simpleRun rt us = some rt') :
    rt' = rt ++ (us.map chunkTexts).flatten := by
  induction us generalizing rt with
  | nil => simp [simpleRun] at h; simp [h.symm]
  | cons u rest ih =>
    simp only [simpleRun] at h
    cases hs : simpleStep rt u with
    | none => rw [hs] at h; cases h
    | some rt1 =>
      rw [hs] at h
      have h1 := simpleStep_text rt u rt1 hs
      have h2 := ih rt1 h
      simp [h2, h1, List.append_assoc]

/-- Processing a whole update sequence appends the chunk texts of the
sequence, in order, to the advanced client's response_text. -/
theorem advRun_text (us : List JVal) (st st' : AdvSt)
    (h : advRun st us = some st') :
    st'.responseText = st.responseText ++ (us.map chunkTexts).flatten := by
  induction us generalizing st with
  | nil => simp [advRun] at h; simp [h.symm]
  | cons u rest ih =>
    simp only [advRun] at h
    cases hs : advStep st u with
    | none => rw [hs] at h; cases h
    | some st1 =>
      rw [hs] at h
      have h1 := advStep_text st u st1 hs
      have h2 := ih st1 h
      simp [h2, h1, List.append_assoc]

/-- Writing a status to a key that is present stores exactly that status. -/
theorem tcStatus_tcSetStatus (m : List (JVal × ToolEntry)) (k s : JVal)
    (h : tcMem m k = true) : tcStatus (tcSetStatus m k s) k = some s := by
  induction m with
  | nil => simp [tcMem, tcGet] at h
  | cons p rest ih =>
    obtain ⟨k', e⟩ := p
    by_cases hk : (k' == k) = true
    · simp [tcSetStatus, hk, tcStatus, tcGet]
    · simp only [tcMem, tcGet, hk] at h
      simp only [Bool.not_eq_true] at hk
      simp [tcSetStatus, hk, tcStatus, tcGet]
      have := ih (by simpa [tcMem] using h)
      simpa [tcStatus] using this

/-- Inserting an entry for key k makes lookup of k yield that entry
(assuming equality on k is reflexive, which holds for hashable keys). -/
theorem tcStatus_tcSet (m : List (JVal × ToolEntry)) (k : JVal) (e : ToolEntry)
    (hk : (k == k) = true) : tcStatus (tcSet m k e) k = some e.status := by
  induction m with
  | nil => simp [tcSet, tcStatus, tcGet, hk]
  | cons p rest ih =>
    obtain ⟨k', e'⟩ := p
    by_cases hk' : (k' == k) = true
    · simp [tcSet, hk', tcStatus, tcGet]
    · simp only [Bool.not_eq_true] at hk'
      simp [tcSet, hk', tcStatus, tcGet]
      simpa [tcStatus] using ih

/-- An update that is not a text chunk contributes no chunk text. -/
theorem chunkTexts_eq_nil (u : JVal) (h : isTextChunk u = false) :
    chunkTexts u = [] := by
  unfold isTextChunk at h
  cases hc : chunkTexts u with
  | nil => rfl
  | cons a l => rw [hc] at h; simp at h

/-- The simple response loop over a run of text-chunk notifications
followed by a timeout returns the bare failure outcome, with the local
response_text holding exactly the chunk texts in order. -/
theorem simpleLoop_chunks (ts : List String) (rt : List JVal) :
    simpleLoop rt (ts.map (fun t => some (chunkNotif t)) ++ [none]) =
      (.fail, rt ++ ts.map JVal.str) := by
  induction ts generalizing rt with
  | nil => simp [simpleLoop]
  | cons t rest ih =>
    have h1 : classify (chunkNotif t) = .upd (chunkUpd t) := rfl
    have h2 : simpleStep rt (chunkUpd t) = some (rt ++ [JVal.str t]) := rfl
    simp only [List.map_cons, List.cons_append, simpleLoop, h1, h2]
    simpa [List.append_assoc, List.append_eq] using ih (rt ++ [JVal.str t])

/-- The advanced response loop over a run of text-chunk notifications
followed by a timeout returns the bare failure outcome, with
response_text holding exactly the chunk texts in order, provided the
deadline check still passes at each iteration. -/
theorem advLoop_chunks (ts : List String) (st : AdvSt) (extra : Nat) :
    advLoop st (ts.length + (extra + 1))
        (ts.map (fun t => some (chunkNotif t)) ++ [none]) =
      (.fail, { st with responseText := st.responseText ++ ts.map JVal.str }) := by
  induction ts generalizing st with
  | nil => simp [advLoop]
  | cons t rest ih =>
    have h1 : classify (chunkNotif t) = .upd (chunkUpd t) := rfl
    have h2 : advStep st (chunkUpd t) =
        some { st with responseText := st.responseText ++ [JVal.str t] } := rfl
    have hlen : (t :: rest).length + (extra + 1) = (rest.length + (extra + 1)) + 1 := by
      simp [List.length_cons]; omega
    rw [hlen]
    simp only [List.map_cons, List.cons_append, advLoop, h1, h2]
    simpa [List.append_assoc, List.append_eq] using
      ih { st with responseText := st.responseText ++ [JVal.str t] }

/-- The reader loop distributes over concatenation of its input lines:
both the delivered queue and the warning log of a concatenated stream are
the concatenations of the parts'. -/
theorem readLoop_append (a b : List RawLine) :
    readLoop (a ++ b) =
      ((readLoop a).1 ++ (readLoop b).1, (readLoop a).2 ++ (readLoop b).2) := by
  induction a with
  | nil => simp [readLoop]
  | cons l rest ih =>
    simp only [List.cons_append, readLoop]
    by_cases he : l.stripped.isEmpty = true
    · simp [he, ih]
    · simp only [Bool.not_eq_true] at he
      cases hp : l.parsed <;> simp [he, hp, ih]

/-- C1: for every sequence of N requests issued on one connection (N
calls to get_next_id on a freshly constructed client), the N assigned
identifiers are exactly 1, 2, ..., N — all distinct, strictly increasing,
starting at 1, and never reused for the lifetime of the connection. -/
theorem c1_identifier_uniqueness (n : Nat) :
    issueIds clientInit n = List.range' 1 n ∧
    (issueIds clientInit n).Pairwise (· < ·) ∧
    (issueIds clientInit n).Nodup := by
  have h : issueIds clientInit n = List.range' 1 n := issueIds_eq_range' clientInit n
  refine ⟨h, ?_, ?_⟩ <;> rw [h]
  · exact List.pairwise_lt_range' ..
  · exact List.nodup_range' ..

/-- C4: for every turn, the reconstructed text of both clients is the
concatenation, in exact wire-arrival order, of the text of every
agent_message_chunk update processed during the turn (non-text content
blocks contribute no text); no reordering, deduplication or dropping. -/
theorem c4_order_preservation (us : List JVal) (rt : List JVal) (st : AdvSt) :
    (simpleRun [] us = some rt → rt = (us.map chunkTexts).flatten) ∧
    (advRun advInit us = some st → st.responseText = (us.map chunkTexts).flatten) := by
  constructor
  · intro h
    simpa using simpleRun_text us [] rt h
  · intro h
    simpa [advInit] using advRun_text us advInit st h

/-- Witness for C4 at the spec's example: chunks Hel, lo-comma-space,
world reconstruct exactly the text Hello, world. -/
theorem c4_order_preservation_witness :
    simpleRun [] [chunkUpd "Hel", chunkUpd "lo, ", chunkUpd "world"] =
        some [JVal.str "Hel", JVal.str "lo, ", JVal.str "world"] ∧
    [JVal.str "Hel", JVal.str "lo, ", JVal.str "world"] =
        ([chunkUpd "Hel", chunkUpd "lo, ", chunkUpd "world"].map chunkTexts).flatten ∧
    strJoin [JVal.str "Hel", JVal.str "lo, ", JVal.str "world"] = "Hello, world" :=
  ⟨rfl,
   (c4_order_preservation [chunkUpd "Hel", chunkUpd "lo, ", chunkUpd "world"]
      [JVal.str "Hel", JVal.str "lo, ", JVal.str "world"] advInit).1 rfl,
   rfl⟩

/-- C10: during a turn, only agent_message_chunk updates whose content
block has type text append to the accumulated response text; every other
successfully processed update leaves it unchanged, in both clients. -/
theorem c10_frame_non_text_updates (st : AdvSt) (u : JVal) (st' : AdvSt)
    (rt rt' : List JVal) :
    (isTextChunk u = false → advStep st u = some st' →
      st'.responseText = st.responseText) ∧
    (isTextChunk u = false → simpleStep rt u = some rt' → rt' = rt) := by
  constructor
  · intro hf h
    have := advStep_text st u st' h
    rw [chunkTexts_eq_nil u hf] at this
    simpa using this
  · intro hf h
    have := simpleStep_text rt u rt' h
    rw [chunkTexts_eq_nil u hf] at this
    simpa using this

/-- Witness for C10 at a plan update processed over nonempty accumulated
text in both clients. -/
theorem c10_frame_non_text_updates_witness :
    ({ responseText := [JVal.str "x"], toolCalls := [] } : AdvSt).responseText =
        ({ responseText := [JVal.str "x"], toolCalls := [] } : AdvSt).responseText ∧
    ([JVal.str "y"] : List JVal) = [JVal.str "y"] :=
  ⟨(c10_frame_non_text_updates { responseText := [JVal.str "x"], toolCalls := [] }
      (JVal.obj [("sessionUpdate", JVal.str "plan"), ("entries", JVal.arr [])])
      { responseText := [JVal.str "x"], toolCalls := [] } [] []).1 rfl rfl,
   (c10_frame_non_text_updates advInit
      (JVal.obj [("sessionUpdate", JVal.str "plan"), ("entries", JVal.arr [])])
      advInit [JVal.str "y"] [JVal.str "y"]).2 rfl rfl⟩

/-- C6: a line that fails to parse as JSON is reported as a warning and
does not terminate the reader: every valid line before and after it is
still decoded and delivered to the response queue, in order. -/
theorem c6_malformed_line_non_fatal (pre post : List RawLine) (bad : RawLine)
    (hbad : bad.parsed = none) :
    (readLoop (pre ++ bad :: post)).1 = (readLoop pre).1 ++ (readLoop post).1 ∧
    (bad.stripped.isEmpty = false →
      (readLoop (pre ++ bad :: post)).2 =
        (readLoop pre).2 ++ bad.stripped :: (readLoop post).2) := by
  have h := readLoop_append pre (bad :: post)
  constructor
  · rw [h]
    by_cases he : bad.stripped.isEmpty = true <;> simp [readLoop, hbad, he]
  · intro hne
    rw [h]
    simp [readLoop, hbad, hne]

/-- Witness for C6 at the spec's scenario: the malformed line not json
interleaved between two valid lines. -/
theorem c6_malformed_line_non_fatal_witness :
    (readLoop [{ stripped := "valid", parsed := some (JVal.obj []) },
               { stripped := "not json", parsed := none },
               { stripped := "1", parsed := some (JVal.num 1) }]).1 =
      (readLoop [{ stripped := "valid", parsed := some (JVal.obj []) }]).1 ++
        (readLoop [{ stripped := "1", parsed := some (JVal.num 1) }]).1 :=
  (c6_malformed_line_non_fatal
    [{ stripped := "valid", parsed := some (JVal.obj []) }]
    [{ stripped := "1", parsed := some (JVal.num 1) }]
    { stripped := "not json", parsed := none } rfl).1

/-- C2 counterexample: in the advanced client a tool_call_update whose id
was never announced by a prior tool_call crashes the driver rather than
being tolerated: the status branch indexes tool_calls at the unknown id
(advanced_acp_client.py:300), an uncaught KeyError, so the per-update
step faults (none) and the turn loop aborts with a crash instead of
continuing. -/
theorem c2_unknown_id_counterexample :
    advStep advInit (updMsg (JVal.str "t9") (JVal.str "in_progress")) = none ∧
    (advLoop advInit 5
        [some (updNotif (updMsg (JVal.str "t9") (JVal.str "in_progress")))]).1 =
      TurnOutcome.crash :=
  ⟨rfl, rfl⟩

/-- C2 amended: a tool_call_update for an id never announced crashes the
advanced client exactly when its status is in_progress, completed or
failed, and is tolerated with no state change for any other status value
(such as pending); the simple client, which keeps no per-id state,
tolerates such updates for every status value. -/
theorem c2_unknown_id_tolerance (st : AdvSt) (kid sv : JVal) (rt : List JVal)
    (hh : hashableJ kid = true) (hm : tcMem st.toolCalls kid = false) :
    ((sv == JVal.str "in_progress") = true ∨ (sv == JVal.str "completed") = true ∨
        (sv == JVal.str "failed") = true →
      advStep st (updMsg kid sv) = none) ∧
    ((sv == JVal.str "in_progress") = false → (sv == JVal.str "completed") = false →
        (sv == JVal.str "failed") = false →
      advStep st (updMsg kid sv) = some st) ∧
    simpleStep rt (updMsg kid sv) = some rt := by
  refine ⟨?_, ?_, ?_⟩
  · intro hsv
    rcases hsv with h | h | h <;>
      simp [advStep, updMsg, objGetD, objLookup, hh, hm, h, jbeq_def, JVal.beq]
  · intro h1 h2 h3
    simp [advStep, updMsg, objGetD, objLookup, hh, hm, h1, h2, h3, jbeq_def, JVal.beq]
  · by_cases hc : (sv == JVal.str "completed") = true <;>
      simp [simpleStep, updMsg, objGetD, objLookup, iterOkBlocks, hc, jbeq_def, JVal.beq]

/-- Witness for the amended C2: a pending-status update for the unknown
id t9 is tolerated by both clients with no state change. -/
theorem c2_unknown_id_tolerance_witness :
    advStep advInit (updMsg (JVal.str "t9") (JVal.str "pending")) = some advInit ∧
    simpleStep [] (updMsg (JVal.str "t9") (JVal.str "pending")) = some [] :=
  ⟨(c2_unknown_id_tolerance advInit (JVal.str "t9") (JVal.str "pending") [] rfl rfl).2.1
      rfl rfl rfl,
   (c2_unknown_id_tolerance advInit (JVal.str "t9") (JVal.str "pending") [] rfl rfl).2.2⟩

/-- C5 counterexample: the advanced client's stored tool-call status does
not move only forward: after tool_call t1, a completed update and then an
in_progress update, the observed stored statuses are pending, completed,
in_progress — a regression from completed back to in_progress, so the
claimed forward-only movement along the lifecycle chain fails. -/
theorem c5_monotonicity_counterexample :
    statusTrace (JVal.str "t1") advInit
        [callMsg (JVal.str "t1") (JVal.str "Read file"),
         updMsg (JVal.str "t1") (JVal.str "completed"),
         updMsg (JVal.str "t1") (JVal.str "in_progress")] =
      some [some (JVal.str "pending"), some (JVal.str "completed"),
            some (JVal.str "in_progress")] ∧
    noRegressionB [JVal.str "pending", JVal.str "completed",
      JVal.str "in_progress"] = false :=
  ⟨rfl, rfl⟩

/-- C5 amended: the advanced client enforces no monotonicity at all — the
stored status of a known id after a tool_call_update is exactly the
status value the update carries, whatever it is, and a re-announcing
tool_call resets the stored status to pending (even from completed). -/
theorem c5_status_mirrors_wire (st st' : AdvSt) (kid sv title : JVal) :
    (tcMem st.toolCalls kid = true →
      advStep st (updMsg kid sv) = some st' →
      tcStatus st'.toolCalls kid = some sv) ∧
    (advStep st (callMsg kid title) = some st' →
      tcStatus st'.toolCalls kid = some (JVal.str "pending")) := by
  constructor
  · intro hm h
    cases hh : hashableJ kid with
    | false => simp [advStep, updMsg, objGetD, objLookup, hh, jbeq_def, JVal.beq] at h
    | true =>
      simp [advStep, updMsg, objGetD, objLookup, hh, hm, jbeq_def, JVal.beq] at h
      repeat' split at h
      all_goals (try (cases h))
      all_goals (try (exact tcStatus_tcSetStatus st.toolCalls kid sv hm))
  · intro h
    cases hh : hashableJ kid with
    | false => simp [advStep, callMsg, objGetD, objLookup, hh, jbeq_def, JVal.beq] at h
    | true =>
      simp [advStep, callMsg, objGetD, objLookup, hh, jbeq_def, JVal.beq] at h
      cases h
      simpa using tcStatus_tcSet st.toolCalls kid _ (jbeq_refl_hashable kid hh)

/-- Witness for the amended C5: from stored status completed, an
in_progress update stores in_progress, and a re-announcement resets the
stored status to pending. -/
theorem c5_status_mirrors_wire_witness :
    tcStatus [(JVal.str "t1",
        ({ title := JVal.str "Read", status := JVal.str "in_progress" } : ToolEntry))]
      (JVal.str "t1") = some (JVal.str "in_progress") ∧
    tcStatus [(JVal.str "t1",
        ({ title := JVal.str "Again", status := JVal.str "pending" } : ToolEntry))]
      (JVal.str "t1") = some (JVal.str "pending") :=
  ⟨(c5_status_mirrors_wire
      { responseText := [],
        toolCalls := [(JVal.str "t1",
          { title := JVal.str "Read", status := JVal.str "completed" })] }
      { responseText := [],
        toolCalls := [(JVal.str "t1",
          { title := JVal.str "Read", status := JVal.str "in_progress" })] }
      (JVal.str "t1") (JVal.str "in_progress") JVal.null).1 rfl rfl,
   (c5_status_mirrors_wire
      { responseText := [],
        toolCalls := [(JVal.str "t1",
          { title := JVal.str "Read", status := JVal.str "completed" })] }
      { responseText := [],
        toolCalls := [(JVal.str "t1",
          { title := JVal.str "Again", status := JVal.str "pending" })] }
      (JVal.str "t1") JVal.null (JVal.str "Again")).2 rfl⟩

/-- C3 counterexample: a turn that gathers two text chunks and then times
out returns exactly the same bare failure value (Python False) as a turn
that gathers nothing before timing out — the returned outcome carries no
partial content at all, so send_prompt does not return a TimedOut
outcome with the accumulated chunks; the chunks survive only in the
discarded local response_text. -/
theorem c3_timeout_discards_partial_counterexample :
    (send_prompt { message_id := 2, session_id := some "s1" }
        [some (chunkNotif "Hel"), some (chunkNotif "lo, "), none]).outcome =
      TurnOutcome.fail ∧
    (send_prompt { message_id := 2, session_id := some "s1" } [none]).outcome =
      TurnOutcome.fail ∧
    (send_prompt { message_id := 2, session_id := some "s1" }
        [some (chunkNotif "Hel"), some (chunkNotif "lo, "), none]).gathered =
      [JVal.str "Hel", JVal.str "lo, "] ∧
    (send_prompt { message_id := 2, session_id := some "s1" } [none]).gathered = [] :=
  ⟨rfl, rfl, rfl, rfl⟩

/-- C3 amended: when text chunks arrive and then a timeout occurs before
any terminal response, both clients' send_prompt returns the bare failure
value False; the partial chunks are accumulated in the local
response_text (in arrival order) and printed as they stream, but are not
carried in the return value. -/
theorem c3_timeout_returns_bare_failure (c : ClientSt) (ts : List String)
    (extra : Nat) (h : pyTruthyStr c.session_id = true) :
    (send_prompt c (ts.map (fun t => some (chunkNotif t)) ++ [none])).outcome =
      TurnOutcome.fail ∧
    (send_prompt c (ts.map (fun t => some (chunkNotif t)) ++ [none])).gathered =
      ts.map JVal.str ∧
    (send_promptA c (ts.length + (extra + 1))
        (ts.map (fun t => some (chunkNotif t)) ++ [none])).outcome =
      TurnOutcome.fail ∧
    (send_promptA c (ts.length + (extra + 1))
        (ts.map (fun t => some (chunkNotif t)) ++ [none])).final.responseText =
      ts.map JVal.str := by
  refine ⟨?_, ?_, ?_, ?_⟩ <;>
    simp [send_prompt, send_promptA, h, simpleLoop_chunks, advLoop_chunks, advInit]

/-- Witness for the amended C3 at the spec's scenario of two text chunks
followed by a timeout. -/
theorem c3_timeout_returns_bare_failure_witness :
    (send_prompt { message_id := 0, session_id := some "s1" }
        [some (chunkNotif "Hel"), some (chunkNotif "lo, "), none]).outcome =
      TurnOutcome.fail ∧
    (send_prompt { message_id := 0, session_id := some "s1" }
        [some (chunkNotif "Hel"), some (chunkNotif "lo, "), none]).gathered =
      [JVal.str "Hel", JVal.str "lo, "] ∧
    (send_promptA { message_id := 0, session_id := some "s1" } 3
        [some (chunkNotif "Hel"), some (chunkNotif "lo, "), none]).outcome =
      TurnOutcome.fail :=
  ⟨(c3_timeout_returns_bare_failure { message_id := 0, session_id := some "s1" }
      ["Hel", "lo, "] 0 rfl).1,
   (c3_timeout_returns_bare_failure { message_id := 0, session_id := some "s1" }
      ["Hel", "lo, "] 0 rfl).2.1,
   (c3_timeout_returns_bare_failure { message_id := 0, session_id := some "s1" }
      ["Hel", "lo, "] 0 rfl).2.2.1⟩

/-- C9: calling send_prompt with no established session returns failure
immediately and atomically in both clients: nothing is written to the
subprocess's stdin, no request identifier is allocated, and the client
state is unchanged. -/
theorem c9_sessionless_guard (c : ClientSt) (msgs : List (Option JVal))
    (fuel : Nat) (h : c.session_id = none) :
    send_prompt c msgs =
      { outcome := .fail, client := c, writtenIds := [], gathered := [] } ∧
    send_promptA c fuel msgs =
      { outcome := .fail, client := c, writtenIds := [], final := advInit } := by
  constructor <;> simp [send_prompt, send_promptA, pyTruthyStr, h]

/-- Witness for C9 on a fresh client offered a pending chunk. -/
theorem c9_sessionless_guard_witness :
    send_prompt clientInit [some (chunkNotif "hi")] =
      { outcome := .fail, client := clientInit, writtenIds := [], gathered := [] } ∧
    send_promptA clientInit 4 [some (chunkNotif "hi")] =
      { outcome := .fail, client := clientInit, writtenIds := [], final := advInit } :=
  c9_sessionless_guard clientInit [some (chunkNotif "hi")] 4 rfl

/-- C7: shutdown is idempotent and safe from every state: with no process
it is a strict no-op; with an already-exited process it only writes the
best-effort exit line and sleeps the bounded grace period (no terminate,
no kill, no error — every exception of the write is caught); it never
blocks on the response queue; and a second shutdown call, under any
subprocess behaviour, never sends terminate or kill because the first
call always leaves the process dead. -/
theorem c7_shutdown_idempotent (c : ShutCtx) (b1 b2 : Bool) :
    (c.started = false → shutdown c = ([], c.live)) ∧
    (c.started = true → c.stdinOpen = true → c.live = Liveness.dead →
      shutdown c = ([ShutAct.sendExit, ShutAct.sleepGrace], Liveness.dead)) ∧
    ShutAct.awaitResp ∉ (shutdown c).1 ∧
    ShutAct.terminate ∉
      (shutdown { started := c.started, stdinOpen := c.stdinOpen,
                  live := (shutdown c).2, diesInGrace := b1,
                  diesInTermWait := b2 }).1 ∧
    ShutAct.kill ∉
      (shutdown { started := c.started, stdinOpen := c.stdinOpen,
                  live := (shutdown c).2, diesInGrace := b1,
                  diesInTermWait := b2 }).1 := by
  obtain ⟨s, so, l, g, t⟩ := c
  cases s <;> cases so <;> cases l <;> cases g <;> cases t <;>
    cases b1 <;> cases b2 <;> decide

/-- Witness for C7: a never-started client and an already-exited
subprocess. -/
theorem c7_shutdown_idempotent_witness :
    shutdown { started := false, stdinOpen := true, live := Liveness.alive,
               diesInGrace := false, diesInTermWait := false } =
      ([], Liveness.alive) ∧
    shutdown { started := true, stdinOpen := true, live := Liveness.dead,
               diesInGrace := false, diesInTermWait := false } =
      ([ShutAct.sendExit, ShutAct.sleepGrace], Liveness.dead) :=
  ⟨(c7_shutdown_idempotent
      { started := false, stdinOpen := true, live := Liveness.alive,
        diesInGrace := false, diesInTermWait := false } false false).1 rfl,
   (c7_shutdown_idempotent
      { started := true, stdinOpen := true, live := Liveness.dead,
        diesInGrace := false, diesInTermWait := false } false false).2.1 rfl rfl rfl⟩

/-- C8: on a live subprocess shutdown performs exactly, in order: the
fire-and-forget exit notification (never awaiting the response queue),
the bounded grace sleep, then terminate only if still alive, then the
second bounded sleep and kill only if still alive after it — no step
skipped or reordered under any subprocess behaviour. -/
theorem c8_shutdown_step_order (c : ShutCtx) (h1 : c.started = true)
    (h2 : c.stdinOpen = true) (h3 : c.live = Liveness.alive) :
    (shutdown c).1 =
      [ShutAct.sendExit, ShutAct.sleepGrace] ++
        (if c.diesInGrace then []
         else [ShutAct.terminate, ShutAct.sleepTerm] ++
           (if c.diesInTermWait then [] else [ShutAct.kill])) ∧
    ShutAct.awaitResp ∉ (shutdown c).1 := by
  obtain ⟨s, so, l, g, t⟩ := c
  simp only at h1 h2 h3
  subst h1
  subst h2
  subst h3
  cases g <;> cases t <;> refine ⟨by decide, by decide⟩

/-- Witness for C8: a live subprocess that ignores both the exit
notification and the termination signal receives the full escalation in
order. -/
theorem c8_shutdown_step_order_witness :
    (shutdown { started := true, stdinOpen := true, live := Liveness.alive,
                diesInGrace := false, diesInTermWait := false }).1 =
      [ShutAct.sendExit, ShutAct.sleepGrace, ShutAct.terminate,
       ShutAct.sleepTerm, ShutAct.kill] ∧
    ShutAct.awaitResp ∉
      (shutdown { started := true, stdinOpen := true, live := Liveness.alive,
                  diesInGrace := false, diesInTermWait := false }).1 :=
  c8_shutdown_step_order
    { started := true, stdinOpen := true, live := Liveness.alive,
      diesInGrace := false, diesInTermWait := false } rfl rfl rfl
